import Mathlib

/-!
Verification of the gesture-recognition core of the hand-gesture 3D
visualiser, following the repository's source:
`gesture_system.py`, `controller.py`, and `precision_tracking.py`.

Conventions of the embedding:
* A hand frame is modelled as a total function from landmark indices to
  3D points; the code only reads indices 0..20.
* Times and coordinates for the coarse classifier and the controller are
  rationals, so every definition is executable and decidable.  The source
  compares `sqrt d < c` (for `c > 0`); the embedding uses the equivalent
  `d < c^2`, and the equivalence with the real square root is proved in
  the lemma `sqrt_comparison_bridge` below.  Likewise, the source's test
  `dot(u/|u|, v/|v|) > 0.7` (both norms positive) is embedded as
  `0 < dot ∧ 49*(|u|²*|v|²) < 100*dot²`; the equivalence is proved in
  the lemma `normalized_dot_bridge`.
* The precision-tracking module produces genuinely irrational values
  (norms, normalized directions), so it is embedded over the reals.
-/

/-- A landmark: one 3D point, x/y normalized camera coordinates plus a
relative depth z.  Rational coordinates (exact arithmetic). -/
structure Pt where
  x : ℚ
  y : ℚ
  z : ℚ
deriving DecidableEq

/-- A hand frame: the 21 hand landmarks, indexed as by the upstream
detector (0 = wrist, 4 = thumb tip, 8 = index tip, ...).  Modelled as a
total function on ℕ; only indices 0..20 are read by the code. -/
def HandFrame : Type := ℕ → Pt

/-- Squared 2D (x,y) distance between two landmarks.  `gesture_system.py`
builds its tip/pip vectors from `[landmarks[i][0], landmarks[i][1]]`
only, so the z coordinate does not participate. -/
def dist2Sq (a b : Pt) : ℚ := (a.x - b.x) ^ 2 + (a.y - b.y) ^ 2

/-- Squared 3D distance between two landmarks (all of x, y, z). -/
def dist3Sq (a b : Pt) : ℚ :=
  (a.x - b.x) ^ 2 + (a.y - b.y) ^ 2 + (a.z - b.z) ^ 2

/-- `GestureSystem.is_thumb_extended`: with `w2m` the 2D vector from the
wrist (0) to the thumb MCP (2) and `m2t` from the MCP to the thumb tip
(4), the source returns `dot(w2m/|w2m|, m2t/|m2t|) > 0.7` when both
norms are positive and `False` otherwise.  Embedded in the equivalent
squared form (see `normalized_dot_bridge`). -/
def isThumbExtended (lm : HandFrame) : Bool :=
  let w2mx := (lm 2).x - (lm 0).x
  let w2my := (lm 2).y - (lm 0).y
  let m2tx := (lm 4).x - (lm 2).x
  let m2ty := (lm 4).y - (lm 2).y
  let nsq1 := w2mx ^ 2 + w2my ^ 2
  let nsq2 := m2tx ^ 2 + m2ty ^ 2
  let d := w2mx * m2tx + w2my * m2ty
  if 0 < nsq1 ∧ 0 < nsq2 then
    decide (0 < d ∧ 49 * (nsq1 * nsq2) < 100 * d ^ 2)
  else false

/-- `index_extended = index_tip[1] < index_pip[1]` (tip 8, pip 6). -/
def indexExtended (lm : HandFrame) : Bool := decide ((lm 8).y < (lm 6).y)

/-- `middle_extended = middle_tip[1] < middle_pip[1]` (tip 12, pip 10). -/
def middleExtended (lm : HandFrame) : Bool := decide ((lm 12).y < (lm 10).y)

/-- `ring_extended = ring_tip[1] < ring_pip[1]` (tip 16, pip 14). -/
def ringExtended (lm : HandFrame) : Bool := decide ((lm 16).y < (lm 14).y)

/-- `pinky_extended = pinky_tip[1] < pinky_pip[1]` (tip 20, pip 18). -/
def pinkyExtended (lm : HandFrame) : Bool := decide ((lm 20).y < (lm 18).y)

/-- `pinch_distance = sqrt(sum((thumb_tip - index_tip)**2))` where both
tips are the 2D slices `[x, y]`; this is the squared value. -/
def pinchDistSq (lm : HandFrame) : ℚ := dist2Sq (lm 4) (lm 8)

/-- `is_pinching = pinch_distance < 0.05`, in squared form
(`d < 0.05` iff `d² < 0.0025 = 1/400`, see `sqrt_comparison_bridge`). -/
def isPinching (lm : HandFrame) : Bool := decide (pinchDistSq lm < 1 / 400)

/-- `sum(finger_states)` over the five boolean extension flags. -/
def countOf (t i m r p : Bool) : ℕ :=
  t.toNat + i.toNat + m.toNat + r.toNat + p.toNat

/-- Number of extended fingers of a frame. -/
def countExtended (lm : HandFrame) : ℕ :=
  countOf (isThumbExtended lm) (indexExtended lm) (middleExtended lm)
    (ringExtended lm) (pinkyExtended lm)

/-- The six per-gesture confidence scores of `detect_gesture`, as a
function of the five extension flags and the pinch flag. -/
structure Confidences where
  fist : ℚ
  thumbs_up : ℚ
  peace : ℚ
  open_palm : ℚ
  pinch : ℚ
  rock_sign : ℚ
deriving DecidableEq

/-- The confidence rules of `detect_gesture`, over the extracted boolean
flags: each rule independently assigns its constant when its predicate
holds, 0 otherwise. -/
def confidencesOf (t i m r p pin : Bool) : Confidences where
  fist := if countOf t i m r p ≤ 1 then 4 / 5 else 0
  thumbs_up := if t && !i && !m && !r && !p then 9 / 10 else 0
  peace := if !t && i && m && !r && !p then 9 / 10 else 0
  open_palm := if 4 ≤ countOf t i m r p then 9 / 10 else 0
  pinch := if pin then 4 / 5 else 0
  rock_sign := if i && !m && !r && p then 4 / 5 else 0

/-- Confidence scores computed from a frame (`detect_gesture` lines 52–83). -/
def confidences (lm : HandFrame) : Confidences :=
  confidencesOf (isThumbExtended lm) (indexExtended lm) (middleExtended lm)
    (ringExtended lm) (pinkyExtended lm) (isPinching lm)

/-- `max(confidences.items(), key=...)`: Python's `max` keeps the first
item and replaces it only on a strictly larger key, i.e. the first
maximum in insertion order (fist, thumbs_up, peace, open_palm, pinch,
rock_sign). -/
def bestGesture (c : Confidences) : String × ℚ :=
  [("thumbs_up", c.thumbs_up), ("peace", c.peace), ("open_palm", c.open_palm),
    ("pinch", c.pinch), ("rock_sign", c.rock_sign)].foldl
    (fun acc q => if acc.2 < q.2 then q else acc) ("fist", c.fist)

/-- The value returned by `detect_gesture` for a (non-empty) frame: the
arg-max gesture if its confidence exceeds 0.5, else `"unknown"`.  The
returned value does not depend on the history state. -/
def detectGesturePure (lm : HandFrame) : String :=
  if 1 / 2 < (bestGesture (confidences lm)).2 then
    (bestGesture (confidences lm)).1
  else "unknown"

/-- Mutable state of `GestureSystem` relevant to `detect_gesture`:
`gesture_history` and `last_gesture_time` (initially `[]` and 0). -/
structure GestureState where
  gesture_history : List (String × ℚ)
  last_gesture_time : ℚ
deriving DecidableEq

/-- `max_history = 10`. -/
def maxHistory : ℕ := 10

/-- `gesture_cooldown = 1.0` seconds. -/
def gestureCooldown : ℚ := 1

/-- `detect_gesture` with its history side effect (lines 88–103): when
the best confidence exceeds 0.5 and more than `gesture_cooldown` has
elapsed since the last append, the gesture is appended with its
timestamp, the oldest entry is popped when the capacity 10 is exceeded,
and `last_gesture_time` is set to `now`. -/
def detectGestureFull (s : GestureState) (lm : HandFrame) (now : ℚ) :
    String × GestureState :=
  let best := bestGesture (confidences lm)
  if 1 / 2 < best.2 then
    if gestureCooldown < now - s.last_gesture_time then
      let h1 := s.gesture_history ++ [(best.1, now)]
      let h2 := if maxHistory < h1.length then h1.drop 1 else h1
      (best.1, ⟨h2, now⟩)
    else (best.1, s)
  else ("unknown", s)

/-- Mutable controller state read and written by
`execute_gesture_action` (`controller.py`). -/
structure DispatchState where
  last_action_time : ℚ
  camera_control_active : Bool
deriving DecidableEq

/-- `action_cooldown = 0.8` seconds. -/
def actionCooldown : ℚ := 4 / 5

/-- `IronManController.execute_gesture_action`: rejects any
non-`open_palm` gesture arriving within the cooldown; `open_palm` sets
camera control and returns without touching `last_action_time`; every
other gesture (recognized or not) that passes the cooldown sets
`last_action_time := now`; unrecognized gestures additionally clear
`camera_control_active` and dispatch no action. -/
def executeGestureAction (s : DispatchState) (gesture : String) (now : ℚ) :
    Option String × DispatchState :=
  if now - s.last_action_time < actionCooldown ∧ gesture ≠ "open_palm" then
    (none, s)
  else if gesture = "fist" then
    (some "spawn_drone", { s with last_action_time := now })
  else if gesture = "peace" then
    (some "shoot_bullet", { s with last_action_time := now })
  else if gesture = "pinch" then
    (some "spawn_box", { s with last_action_time := now })
  else if gesture = "thumbs_up" then
    (some "rotate_all_objects", { s with last_action_time := now })
  else if gesture = "rock_sign" then
    (some "create_explosion", { s with last_action_time := now })
  else if gesture = "open_palm" then
    (some "camera_control", { s with camera_control_active := true })
  else
    (none, { last_action_time := now, camera_control_active := false })

/-- One frame of `IronManController.check_for_mode_toggle`, as a function
of the current timer value `t` (`mode_toggle_cooldown`), the pose flag
(`all_extended`) and the elapsed frame time `dt`; `H` is
`mode_toggle_cooldown_time` (1.0 in the source after the second
assignment in `__init__`).  Returns the new timer value and whether a
toggle event fired this frame. -/
def modeToggleStep (H t : ℚ) (pose : Bool) (dt : ℚ) : ℚ × Bool :=
  if pose then
    if 0 < t then
      let t' := t - dt
      if t' ≤ 0 then (-H, true) else (t', false)
    else if t = 0 then (H, false)
    else (t, false)
  else
    if 0 < t then (0, false)
    else if t < 0 then (min 0 (t + dt), false)
    else (t, false)

/-- Iterate `modeToggleStep` over a list of frames, each a pair of the
pose flag and the frame's elapsed time; returns the final timer value
and the number of toggle events fired. -/
def runModeToggle (H : ℚ) (t : ℚ) : List (Bool × ℚ) → ℚ × ℕ
  | [] => (t, 0)
  | f :: fs =>
    let r := modeToggleStep H t f.1 f.2
    let rest := runModeToggle H r.1 fs
    (rest.1, (if r.2 then 1 else 0) + rest.2)

/-- The three conceptual states of the mode-toggle timer. -/
inductive ModeState where
  | Idle
  | Arming
  | Cooling
deriving DecidableEq

/-- Classification of a timer value: `Idle (0)`, `Arming (>0)`,
`Cooling (<0)`. -/
def stateOf (t : ℚ) : ModeState :=
  if t = 0 then ModeState.Idle else if 0 < t then ModeState.Arming
  else ModeState.Cooling

/-- The controller's extension flags in `check_for_mode_toggle` compare
each tip against the finger MCP (indices 5, 9, 13, 17), unlike the
coarse classifier which uses the PIPs. -/
def indexExtendedMCP (lm : HandFrame) : Bool := decide ((lm 8).y < (lm 5).y)

/-- Middle tip (12) against middle MCP (9). -/
def middleExtendedMCP (lm : HandFrame) : Bool := decide ((lm 12).y < (lm 9).y)

/-- Ring tip (16) against ring MCP (13). -/
def ringExtendedMCP (lm : HandFrame) : Bool := decide ((lm 16).y < (lm 13).y)

/-- Pinky tip (20) against pinky MCP (17). -/
def pinkyExtendedMCP (lm : HandFrame) : Bool := decide ((lm 20).y < (lm 17).y)

/-- `all_extended` of `check_for_mode_toggle`: the gesture system's thumb
test plus the four MCP-based flags. -/
def allFingersExtended (lm : HandFrame) : Bool :=
  isThumbExtended lm && indexExtendedMCP lm && middleExtendedMCP lm &&
    ringExtendedMCP lm && pinkyExtendedMCP lm

/-- `check_for_mode_toggle` on a frame: computes the pose flag from the
landmarks and applies the timer step. -/
def checkForModeToggle (H t : ℚ) (lm : HandFrame) (dt : ℚ) : ℚ × Bool :=
  modeToggleStep H t (allFingersExtended lm) dt

/-- Builder for concrete test frames: thumb tip and index tip are given
explicitly (they control the thumb test and the pinch distance); the
middle/ring/pinky tips are extended (y = 3/10, above both PIP y = 1/2
and MCP y = 6/10) or closed (y = 7/10, below both) per flag. -/
def mkFrame (thumbTip idxTip : Pt) (mExt rExt pExt : Bool) : HandFrame :=
  fun n =>
  if n = 0 then ⟨1/2, 9/10, 0⟩
  else if n = 2 then ⟨1/2, 7/10, 0⟩
  else if n = 4 then thumbTip
  else if n = 5 then ⟨1/2, 6/10, 0⟩
  else if n = 6 then ⟨1/2, 1/2, 0⟩
  else if n = 8 then idxTip
  else if n = 9 then ⟨6/10, 6/10, 0⟩
  else if n = 10 then ⟨6/10, 1/2, 0⟩
  else if n = 12 then ⟨6/10, if mExt then 3/10 else 7/10, 0⟩
  else if n = 13 then ⟨7/10, 6/10, 0⟩
  else if n = 14 then ⟨7/10, 1/2, 0⟩
  else if n = 16 then ⟨7/10, if rExt then 3/10 else 7/10, 0⟩
  else if n = 17 then ⟨4/5, 6/10, 0⟩
  else if n = 18 then ⟨4/5, 1/2, 0⟩
  else if n = 20 then ⟨4/5, if pExt then 3/10 else 7/10, 0⟩
  else ⟨0, 0, 0⟩

/-- All five fingers closed, thumb tip far from index tip: only the fist
rule fires. -/
def fistFrame : HandFrame :=
  mkFrame ⟨1/10, 9/10, 0⟩ ⟨1/2, 7/10, 0⟩ false false false

/-- Only the thumb extended (tip ⟨1/2,1/2⟩ aligned with wrist→MCP), all
four fingers closed, no pinch: the thumbs-up predicate holds, and with
it necessarily the fist predicate (1 ≤ 1 finger extended). -/
def thumbOnlyFrame : HandFrame :=
  mkFrame ⟨1/2, 1/2, 0⟩ ⟨1/2, 7/10, 0⟩ false false false

/-- Thumb tip and index tip at planar distance exactly 0.0499. -/
def pinch0499Frame : HandFrame :=
  mkFrame ⟨1/2 + 499/10000, 7/10, 0⟩ ⟨1/2, 7/10, 0⟩ false false false

/-- Thumb tip and index tip at planar distance exactly 0.0501. -/
def pinch0501Frame : HandFrame :=
  mkFrame ⟨1/2 + 501/10000, 7/10, 0⟩ ⟨1/2, 7/10, 0⟩ false false false

/-- Thumb tip and index tip identical in x and y but one depth unit
apart in z: planar distance 0, full 3D distance 1. -/
def depthPinchFrame : HandFrame :=
  mkFrame ⟨1/2, 7/10, 0⟩ ⟨1/2, 7/10, 1⟩ false false false

/-!  The precision-tracking module (`precision_tracking.py`), over ℝ. -/

noncomputable section

open Classical

/-- A landmark with real coordinates, for the precision tracker. -/
structure PtR where
  x : ℝ
  y : ℝ
  z : ℝ

/-- A hand frame with real coordinates. -/
def HandFrameR : Type := ℕ → PtR

/-- Componentwise difference of two points (`curr - prev`, vectors). -/
def sub3 (a b : PtR) : PtR := ⟨a.x - b.x, a.y - b.y, a.z - b.z⟩

/-- 3D dot product. -/
def dot3 (a b : PtR) : ℝ := a.x * b.x + a.y * b.y + a.z * b.z

/-- `np.linalg.norm` of a 3-vector. -/
def norm3 (a : PtR) : ℝ := Real.sqrt (dot3 a a)

/-- Scalar multiple of a 3-vector. -/
def scale3 (c : ℝ) (a : PtR) : PtR := ⟨c * a.x, c * a.y, c * a.z⟩

/-- `index_extended = landmarks[8][1] < landmarks[5][1]` (tip vs MCP,
the convention used throughout `precision_tracking.py`). -/
def IndexExtR (lm : HandFrameR) : Prop := (lm 8).y < (lm 5).y

/-- `middle_extended = landmarks[12][1] < landmarks[9][1]`. -/
def MiddleExtR (lm : HandFrameR) : Prop := (lm 12).y < (lm 9).y

/-- `ring_extended = landmarks[16][1] < landmarks[13][1]`. -/
def RingExtR (lm : HandFrameR) : Prop := (lm 16).y < (lm 13).y

/-- `pinky_extended = landmarks[20][1] < landmarks[17][1]`. -/
def PinkyExtR (lm : HandFrameR) : Prop := (lm 20).y < (lm 17).y

/-- `PrecisionHandTracker.is_thumb_extended`: identical formula to the
gesture system's (2D vectors wrist→MCP and MCP→tip, normalized dot
product above 0.7, `False` on zero-length vectors), embedded in the
equivalent squared form (see `normalized_dot_bridge`). -/
def ThumbExtR (lm : HandFrameR) : Prop :=
  ((lm 2).x - (lm 0).x) ^ 2 + ((lm 2).y - (lm 0).y) ^ 2 > 0 ∧
  ((lm 4).x - (lm 2).x) ^ 2 + ((lm 4).y - (lm 2).y) ^ 2 > 0 ∧
  0 < ((lm 2).x - (lm 0).x) * ((lm 4).x - (lm 2).x) +
      ((lm 2).y - (lm 0).y) * ((lm 4).y - (lm 2).y) ∧
  49 * ((((lm 2).x - (lm 0).x) ^ 2 + ((lm 2).y - (lm 0).y) ^ 2) *
        (((lm 4).x - (lm 2).x) ^ 2 + ((lm 4).y - (lm 2).y) ^ 2)) <
    100 * (((lm 2).x - (lm 0).x) * ((lm 4).x - (lm 2).x) +
           ((lm 2).y - (lm 0).y) * ((lm 4).y - (lm 2).y)) ^ 2

/-- The six finger patterns of `detect_tool_selection_gesture`, in the
order they are checked by the `if`/`elif` ladder. -/
def ToolPattern (lm : HandFrameR) : Fin 6 → Prop
  | 0 => IndexExtR lm ∧ ¬MiddleExtR lm ∧ ¬RingExtR lm ∧ ¬PinkyExtR lm
  | 1 => IndexExtR lm ∧ MiddleExtR lm ∧ ¬RingExtR lm ∧ ¬PinkyExtR lm
  | 2 => IndexExtR lm ∧ MiddleExtR lm ∧ RingExtR lm ∧ ¬PinkyExtR lm
  | 3 => IndexExtR lm ∧ MiddleExtR lm ∧ RingExtR lm ∧ PinkyExtR lm
  | 4 => ThumbExtR lm ∧ IndexExtR lm ∧ ¬MiddleExtR lm ∧ ¬RingExtR lm ∧
         PinkyExtR lm
  | 5 => IndexExtR lm ∧ ¬MiddleExtR lm ∧ ¬RingExtR lm ∧ PinkyExtR lm ∧
         ¬ThumbExtR lm

/-- A tool-selection result `{"tool": ..., "confidence": ...}`. -/
structure ToolSel where
  tool : String
  confidence : ℝ

/-- `detect_tool_selection_gesture`: the `if`/`elif` priority ladder over
the six patterns; `None` when no pattern matches. -/
def detectToolSelectionGesture (lm : HandFrameR) : Option ToolSel :=
  if ToolPattern lm 0 then some ⟨"select", 9/10⟩
  else if ToolPattern lm 1 then some ⟨"create", 9/10⟩
  else if ToolPattern lm 2 then some ⟨"move", 9/10⟩
  else if ToolPattern lm 3 then some ⟨"scale", 9/10⟩
  else if ToolPattern lm 4 then some ⟨"rotate", 9/10⟩
  else if ToolPattern lm 5 then some ⟨"extrude", 9/10⟩
  else none

/-- The pointing pose of `_is_index_precision_pointing`: index extended,
middle/ring/pinky closed (closed = not extended). -/
def PointingPose (lm : HandFrameR) : Prop :=
  IndexExtR lm ∧ ¬MiddleExtR lm ∧ ¬RingExtR lm ∧ ¬PinkyExtR lm

/-- `_is_index_precision_pointing`: the pointing pose AND a stability
gate; `stable` starts `False` and is only computed when key 8 is present
in the velocity mapping (`np.linalg.norm(velocities[8]) < 0.01`). -/
def isIndexPrecisionPointing (lm : HandFrameR) (vel : Option (ℕ → PtR)) :
    Prop :=
  PointingPose lm ∧
    (match vel with
     | none => False
     | some v => norm3 (v 8) < 1 / 100)

/-- `_get_pointing_direction`: normalized index PIP→tip vector, with the
canonical fallback (0,0,1) for a zero-length vector. -/
def pointingDirection (lm : HandFrameR) : PtR :=
  let d := sub3 (lm 8) (lm 6)
  if 0 < norm3 d then scale3 (1 / norm3 d) d else ⟨0, 0, 1⟩

/-- `_get_middle_direction`: normalized middle PIP→tip vector with the
same fallback. -/
def middleDirection (lm : HandFrameR) : PtR :=
  let d := sub3 (lm 12) (lm 10)
  if 0 < norm3 d then scale3 (1 / norm3 d) d else ⟨0, 0, 1⟩

/-- `_measure_pinch`: full 3D distance between thumb tip and index tip
(the landmark rows carry all three coordinates here). -/
def measurePinch (lm : HandFrameR) : ℝ := norm3 (sub3 (lm 4) (lm 8))

/-- `_measure_finger_spread`: mean distance between adjacent fingertips
among index (8), middle (12), ring (16), pinky (20). -/
def measureFingerSpread (lm : HandFrameR) : ℝ :=
  (norm3 (sub3 (lm 8) (lm 12)) + norm3 (sub3 (lm 12) (lm 16)) +
    norm3 (sub3 (lm 16) (lm 20))) / 3

/-- `_is_three_finger_control`: index, middle, ring extended and pinky
closed. -/
def IsThreeFingerControl (lm : HandFrameR) : Prop :=
  IndexExtR lm ∧ MiddleExtR lm ∧ RingExtR lm ∧ ¬PinkyExtR lm

/-- `_get_stable_palm`: mean of wrist (0), landmark 1 and the four
finger bases (5, 9, 13, 17). -/
def stablePalm (lm : HandFrameR) : PtR :=
  ⟨((lm 0).x + (lm 1).x + (lm 5).x + (lm 9).x + (lm 13).x + (lm 17).x) / 6,
   ((lm 0).y + (lm 1).y + (lm 5).y + (lm 9).y + (lm 13).y + (lm 17).y) / 6,
   ((lm 0).z + (lm 1).z + (lm 5).z + (lm 9).z + (lm 13).z + (lm 17).z) / 6⟩

/-- Payload of the `precision_point` entry. -/
structure PointData where
  confidence : ℝ
  position : PtR
  direction : PtR

/-- Payload of the precision `pinch` entry. -/
structure PinchDataR where
  confidence : ℝ
  position : PtR
  strength : ℝ

/-- Payload of the `spread_scale` entry. -/
structure SpreadData where
  confidence : ℝ
  scale_factor : ℝ

/-- Payload of the `three_finger_control` entry. -/
structure ThreeFingerData where
  confidence : ℝ
  position : PtR
  direction : PtR

/-- The result mapping of `detect_precise_gestures`: one optional entry
per detector (a missing dict key is `none`). -/
structure PrecisionGestures where
  precision_point : Option PointData
  pinch : Option PinchDataR
  spread_scale : Option SpreadData
  three_finger_control : Option ThreeFingerData
  tool_selection : Option ToolSel

/-- The data dict produced by `PrecisionHandTracker.update`: filtered
landmarks, the velocity mapping (absent as a whole on the first frame
after (re)acquisition — the dict then has no fingertip keys at all) and
the stable palm center.  The hand-orientation quaternion is also in the
source dict but is read by none of the code under verification. -/
structure PrecisionData where
  landmarks : HandFrameR
  velocities : Option (ℕ → PtR)
  stable_palm : PtR

/-- Midpoint of thumb tip and index tip. -/
def midpoint3 (a b : PtR) : PtR :=
  ⟨(a.x + b.x) / 2, (a.y + b.y) / 2, (a.z + b.z) / 2⟩

/-- `detect_precise_gestures`: the falsy guard returns the empty dict;
otherwise the four detectors and the tool-selection ladder are all
evaluated, `spread_scale` being assigned unconditionally. -/
def detectPreciseGestures (data : Option PrecisionData) : PrecisionGestures :=
  match data with
  | none => ⟨none, none, none, none, none⟩
  | some d =>
    let lm := d.landmarks
    let pp :=
      if isIndexPrecisionPointing lm d.velocities then
        some (⟨9/10, lm 8, pointingDirection lm⟩ : PointData)
      else none
    let pinchDegree := measurePinch lm
    let pn :=
      if pinchDegree < 1/20 then
        some (⟨9/10, midpoint3 (lm 4) (lm 8), 1 - pinchDegree * 20⟩ :
          PinchDataR)
      else none
    let spread := measureFingerSpread lm
    let ss : Option SpreadData :=
      some ⟨if 3/10 < spread then 7/10 else 0, spread * 3⟩
    let tf :=
      if IsThreeFingerControl lm then
        some (⟨4/5, lm 12, middleDirection lm⟩ : ThreeFingerData)
      else none
    ⟨pp, pn, ss, tf, detectToolSelectionGesture lm⟩

/-- filterpy's constant-velocity system matrix `F` (position advanced by
velocity, velocity constant). -/
def kfF : Matrix (Fin 6) (Fin 6) ℝ :=
  Matrix.of ![![1,0,0,1,0,0], ![0,1,0,0,1,0], ![0,0,1,0,0,1],
              ![0,0,0,1,0,0], ![0,0,0,0,1,0], ![0,0,0,0,0,1]]

/-- Measurement matrix `H` (positions are observed). -/
def kfH : Matrix (Fin 3) (Fin 6) ℝ :=
  Matrix.of ![![1,0,0,0,0,0], ![0,1,0,0,0,0], ![0,0,1,0,0,0]]

/-- Process noise `Q = 0.01 I`. -/
def kfQ : Matrix (Fin 6) (Fin 6) ℝ := (1/100 : ℝ) • 1

/-- Measurement noise `R = 0.1 I`. -/
def kfR : Matrix (Fin 3) (Fin 3) ℝ := (1/10 : ℝ) • 1

/-- Initial covariance `P = 0.1 I`. -/
def kfPinit : Matrix (Fin 6) (Fin 6) ℝ := (1/10 : ℝ) • 1

/-- One Kalman filter instance: state vector (pos + vel) and covariance. -/
structure KFState where
  x : Fin 6 → ℝ
  P : Matrix (Fin 6) (Fin 6) ℝ

/-- `KalmanFilter.predict`: `x ← F x`, `P ← F P Fᵀ + Q`. -/
def kfPredict (s : KFState) : KFState :=
  ⟨kfF.mulVec s.x, kfF * s.P * kfF.transpose + kfQ⟩

/-- `KalmanFilter.update` with measurement `z`: innovation
`y = z − H x`, `S = H P Hᵀ + R`, gain `K = P Hᵀ S⁻¹`,
`x ← x + K y`, `P ← (I − K H) P`. -/
def kfUpdate (s : KFState) (z : Fin 3 → ℝ) : KFState :=
  let y := z - kfH.mulVec s.x
  let S := kfH * s.P * kfH.transpose + kfR
  let K := s.P * kfH.transpose * S⁻¹
  ⟨s.x + K.mulVec y, (1 - K * kfH) * s.P⟩

/-- Mutable state of `PrecisionHandTracker`: previous filtered frame,
smoothing history (capacity 5), and the per-fingertip filters (the dict
is keyed by 4, 8, 12, 16, 20; modelled as a total function). -/
structure TrackerState where
  prev_landmarks : Option HandFrameR
  landmark_history : List HandFrameR
  filters : ℕ → KFState

/-- Is `n` one of the five filtered fingertip indices? -/
def IsTipIdx (n : ℕ) : Prop := n = 4 ∨ n = 8 ∨ n = 12 ∨ n = 16 ∨ n = 20

/-- `PrecisionHandTracker.update`: `None` input is passed through;
otherwise the frame is appended to the bounded history, the five
fingertips are Kalman-filtered (predict then update), velocities
`filtered_t − filtered_{t−1}` are produced only when a previous frame
exists, and the previous frame is set to the filtered one. -/
def trackerUpdate (s : TrackerState) (landmarks : Option HandFrameR) :
    Option PrecisionData × TrackerState :=
  match landmarks with
  | none => (none, s)
  | some lm =>
    let h1 := s.landmark_history ++ [lm]
    let h2 := if 5 < h1.length then h1.drop 1 else h1
    let newFilters : ℕ → KFState := fun i =>
      if IsTipIdx i then
        kfUpdate (kfPredict (s.filters i)) ![(lm i).x, (lm i).y, (lm i).z]
      else s.filters i
    let filtered : HandFrameR := fun i =>
      if IsTipIdx i then
        ⟨(newFilters i).x 0, (newFilters i).x 1, (newFilters i).x 2⟩
      else lm i
    let velocities : Option (ℕ → PtR) :=
      s.prev_landmarks.map (fun prev => fun i => sub3 (filtered i) (prev i))
    (some ⟨filtered, velocities, stablePalm filtered⟩,
     ⟨some filtered, h2, newFilters⟩)

/-- The tracker state created by `PrecisionHandTracker.__init__`:
no previous frame, empty history, all filters at the filterpy defaults
(zero state, `P = 0.1 I`). -/
def initTracker : TrackerState :=
  ⟨none, [], fun _ => ⟨fun _ => 0, kfPinit⟩⟩

end

noncomputable section

/-- Builder for concrete real-valued test frames: thumb tip explicit,
the four finger tips extended (y = 3/10, above the MCP y = 6/10) or
closed (y = 7/10) per flag. -/
def mkFrameR (thumbTip : PtR) (iExt mExt rExt pExt : Bool) : HandFrameR :=
  fun n =>
  if n = 0 then ⟨1/2, 9/10, 0⟩
  else if n = 2 then ⟨1/2, 7/10, 0⟩
  else if n = 4 then thumbTip
  else if n = 5 then ⟨1/2, 6/10, 0⟩
  else if n = 6 then ⟨1/2, 1/2, 0⟩
  else if n = 8 then ⟨1/2, if iExt then 3/10 else 7/10, 0⟩
  else if n = 9 then ⟨6/10, 6/10, 0⟩
  else if n = 10 then ⟨6/10, 1/2, 0⟩
  else if n = 12 then ⟨6/10, if mExt then 3/10 else 7/10, 0⟩
  else if n = 13 then ⟨7/10, 6/10, 0⟩
  else if n = 16 then ⟨7/10, if rExt then 3/10 else 7/10, 0⟩
  else if n = 17 then ⟨4/5, 6/10, 0⟩
  else if n = 20 then ⟨4/5, if pExt then 3/10 else 7/10, 0⟩
  else ⟨0, 0, 0⟩

/-- Thumb, index and pinky extended; middle and ring closed (the shared
sub-condition of tool patterns 5 and 6, with the thumb extended). -/
def rotateFrameR : HandFrameR := mkFrameR ⟨1/2, 1/2, 0⟩ true false false true

/-- Index and pinky extended, middle/ring closed, thumb folded back
(MCP→tip anti-aligned with wrist→MCP). -/
def extrudeFrameR : HandFrameR := mkFrameR ⟨1/10, 9/10, 0⟩ true false false true

/-- A concrete `update`-style data record with no velocity mapping. -/
def sampleData : PrecisionData := ⟨rotateFrameR, none, ⟨0, 0, 0⟩⟩

end

/-- The fist rule's predicate: at most one finger extended. -/
def FistPredicate (lm : HandFrame) : Prop := countExtended lm ≤ 1

/-- The thumbs-up rule's predicate: only the thumb extended. -/
def ThumbsUpPredicate (lm : HandFrame) : Prop :=
  isThumbExtended lm = true ∧ indexExtended lm = false ∧
  middleExtended lm = false ∧ ringExtended lm = false ∧
  pinkyExtended lm = false

/-- The peace rule's predicate: exactly index and middle extended. -/
def PeacePredicate (lm : HandFrame) : Prop :=
  isThumbExtended lm = false ∧ indexExtended lm = true ∧
  middleExtended lm = true ∧ ringExtended lm = false ∧
  pinkyExtended lm = false

/-- The open-palm rule's predicate: at least four fingers extended. -/
def OpenPalmPredicate (lm : HandFrame) : Prop := 4 ≤ countExtended lm

/-- The pinch rule's predicate: thumb tip and index tip close. -/
def PinchPredicate (lm : HandFrame) : Prop := isPinching lm = true

/-- The rock-sign rule's predicate: index and pinky extended, middle and
ring closed (thumb free). -/
def RockSignPredicate (lm : HandFrame) : Prop :=
  indexExtended lm = true ∧ middleExtended lm = false ∧
  ringExtended lm = false ∧ pinkyExtended lm = true

/-- Justification of the squared embedding of `sqrt d < c` comparisons
(pinch threshold 0.05, velocity threshold 0.01): for a positive
threshold, comparing the square root is comparing the radicand with the
squared threshold. -/
theorem sqrt_comparison_bridge (d c : ℝ) (hc : 0 < c) :
    Real.sqrt d < c ↔ d < c ^ 2 :=
  Real.sqrt_lt' hc

/-- Justification of the squared embedding of the thumb-extension test:
with `nu`, `nv` the squared norms of the two vectors (both positive) and
`d` their dot product, the source's `dot(u/|u|, v/|v|) > 0.7` holds iff
`0 < d` and `49·(nu·nv) < 100·d²`. -/
theorem normalized_dot_bridge (nu nv d : ℝ) (hu : 0 < nu) (hv : 0 < nv) :
    7 / 10 < d / (Real.sqrt nu * Real.sqrt nv) ↔
      0 < d ∧ 49 * (nu * nv) < 100 * d ^ 2 := by
  have ha : 0 < Real.sqrt nu := Real.sqrt_pos.mpr hu
  have hb : 0 < Real.sqrt nv := Real.sqrt_pos.mpr hv
  have ha2 : Real.sqrt nu ^ 2 = nu := Real.sq_sqrt hu.le
  have hb2 : Real.sqrt nv ^ 2 = nv := Real.sq_sqrt hv.le
  rw [lt_div_iff₀ (mul_pos ha hb)]
  constructor
  · intro h
    have hab : 0 < Real.sqrt nu * Real.sqrt nv := mul_pos ha hb
    have hd : 0 < d := lt_trans (by positivity) h
    refine ⟨hd, ?_⟩
    have h1 : 0 < 10 * d - 7 * (Real.sqrt nu * Real.sqrt nv) := by linarith
    have h2 : 0 < 10 * d + 7 * (Real.sqrt nu * Real.sqrt nv) := by linarith
    nlinarith [mul_pos h1 h2]
  · rintro ⟨hd, hlt⟩
    by_contra hcon
    push_neg at hcon
    have hsq : d * d ≤ (7 / 10 * (Real.sqrt nu * Real.sqrt nv)) *
        (7 / 10 * (Real.sqrt nu * Real.sqrt nv)) :=
      mul_le_mul hcon hcon hd.le (by positivity)
    nlinarith [hsq]

/-- Holding the pose while the timer is negative (Cooling) changes
nothing and fires nothing, for any number of frames. -/
theorem runModeToggle_held_cooling (H t : ℚ) (ht : t < 0) (ds : List ℚ) :
    runModeToggle H t (ds.map fun d => (true, d)) = (t, 0) := by
  induction ds with
  | nil => rfl
  | cons d ds ih =>
    have hstep : modeToggleStep H t true d = (t, false) := by
      simp [modeToggleStep, not_lt.mpr ht.le, ht.ne]
    simp [runModeToggle, hstep, ih]

/-- While Arming with remaining time `t > 0`, a run of held frames whose
elapsed times are nonnegative and sum to less than `t` just counts the
timer down and fires nothing. -/
theorem runModeToggle_arming (H : ℚ) (ds : List ℚ) :
    ∀ t : ℚ, 0 < t → (∀ d ∈ ds, 0 ≤ d) → ds.sum < t →
      runModeToggle H t (ds.map fun d => (true, d)) = (t - ds.sum, 0) := by
  induction ds with
  | nil => intro t ht _ _; simp [runModeToggle]
  | cons d ds ih =>
    intro t ht hnn hsum
    have hd : 0 ≤ d := hnn d (by simp)
    have hds : 0 ≤ ds.sum := List.sum_nonneg (fun x hx => hnn x (by simp [hx]))
    have hsum' : d + ds.sum < t := by simpa [List.sum_cons] using hsum
    have htd : 0 < t - d := by linarith
    have hstep : modeToggleStep H t true d = (t - d, false) := by
      simp [modeToggleStep, ht, not_le.mpr htd]
    have ihr := ih (t - d) htd (fun x hx => hnn x (by simp [hx])) (by linarith)
    simp [runModeToggle, hstep, ihr, List.sum_cons]
    ring

/-- While Arming with remaining time `t > 0`, a run of held frames whose
elapsed times sum to at least `t` fires exactly one toggle event. -/
theorem runModeToggle_arming_fires (H : ℚ) (hH : 0 < H) (ds : List ℚ) :
    ∀ t : ℚ, 0 < t → t ≤ ds.sum →
      (runModeToggle H t (ds.map fun d => (true, d))).2 = 1 := by
  induction ds with
  | nil =>
    intro t ht hsum
    exact absurd (lt_of_lt_of_le ht (by simpa using hsum)) (lt_irrefl 0)
  | cons d ds ih =>
    intro t ht hsum
    by_cases hfire : t - d ≤ 0
    · have hstep : modeToggleStep H t true d = (-H, true) := by
        simp [modeToggleStep, ht, hfire]
      have hrest := runModeToggle_held_cooling H (-H) (by linarith) ds
      simp [runModeToggle, hstep, hrest]
    · push_neg at hfire
      have hstep : modeToggleStep H t true d = (t - d, false) := by
        simp [modeToggleStep, ht, not_le.mpr hfire]
      have hsum' : t - d ≤ ds.sum := by
        have : t ≤ d + ds.sum := by simpa [List.sum_cons] using hsum
        linarith
      have ihr := ih (t - d) hfire hsum'
      simp [runModeToggle, hstep, ihr]

/-- Running a concatenation of frame lists runs them in sequence and
adds the event counts. -/
theorem runModeToggle_append (H t : ℚ) (l1 l2 : List (Bool × ℚ)) :
    runModeToggle H t (l1 ++ l2) =
      ((runModeToggle H (runModeToggle H t l1).1 l2).1,
       (runModeToggle H t l1).2 + (runModeToggle H (runModeToggle H t l1).1 l2).2) := by
  induction l1 generalizing t with
  | nil => simp [runModeToggle]
  | cons f fs ih =>
    simp [runModeToggle, ih]
    omega

/-- The fist rule over the extracted flags: fist predicate, no thumbs-up, no pinch. -/
theorem fist_rule_aux (t i m r p pin : Bool) :
    countOf t i m r p ≤ 1 →
      ¬(t = true ∧ i = false ∧ m = false ∧ r = false ∧ p = false) →
      ¬(pin = true) →
      confidencesOf t i m r p pin = ⟨4/5, 0, 0, 0, 0, 0⟩ ∧
      (if 1/2 < (bestGesture (confidencesOf t i m r p pin)).2 then
        (bestGesture (confidencesOf t i m r p pin)).1 else "unknown") = "fist" := by
  cases t <;> cases i <;> cases m <;> cases r <;> cases p <;> cases pin <;>
    norm_num [confidencesOf, bestGesture, countOf]

/-- The thumbs-up rule over the extracted flags: its predicate forces the fist predicate. -/
theorem thumbs_up_rule_aux (t i m r p pin : Bool) :
    (t = true ∧ i = false ∧ m = false ∧ r = false ∧ p = false) →
      ¬(pin = true) →
      countOf t i m r p ≤ 1 ∧
      confidencesOf t i m r p pin = ⟨4/5, 9/10, 0, 0, 0, 0⟩ ∧
      (if 1/2 < (bestGesture (confidencesOf t i m r p pin)).2 then
        (bestGesture (confidencesOf t i m r p pin)).1 else "unknown") =
        "thumbs_up" := by
  cases t <;> cases i <;> cases m <;> cases r <;> cases p <;> cases pin <;>
    norm_num [confidencesOf, bestGesture, countOf]

/-- The peace rule over the extracted flags. -/
theorem peace_rule_aux (t i m r p pin : Bool) :
    (t = false ∧ i = true ∧ m = true ∧ r = false ∧ p = false) →
      ¬(pin = true) →
      confidencesOf t i m r p pin = ⟨0, 0, 9/10, 0, 0, 0⟩ ∧
      (if 1/2 < (bestGesture (confidencesOf t i m r p pin)).2 then
        (bestGesture (confidencesOf t i m r p pin)).1 else "unknown") =
        "peace" := by
  cases t <;> cases i <;> cases m <;> cases r <;> cases p <;> cases pin <;>
    norm_num [confidencesOf, bestGesture, countOf]

/-- The open-palm rule over the extracted flags. -/
theorem open_palm_rule_aux (t i m r p pin : Bool) :
    4 ≤ countOf t i m r p →
      ¬(pin = true) →
      confidencesOf t i m r p pin = ⟨0, 0, 0, 9/10, 0, 0⟩ ∧
      (if 1/2 < (bestGesture (confidencesOf t i m r p pin)).2 then
        (bestGesture (confidencesOf t i m r p pin)).1 else "unknown") =
        "open_palm" := by
  cases t <;> cases i <;> cases m <;> cases r <;> cases p <;> cases pin <;>
    norm_num [confidencesOf, bestGesture, countOf]

/-- The pinch rule over the extracted flags. -/
theorem pinch_rule_aux (t i m r p pin : Bool) :
    pin = true →
      ¬(countOf t i m r p ≤ 1) →
      ¬(t = false ∧ i = true ∧ m = true ∧ r = false ∧ p = false) →
      ¬(4 ≤ countOf t i m r p) →
      ¬(i = true ∧ m = false ∧ r = false ∧ p = true) →
      confidencesOf t i m r p pin = ⟨0, 0, 0, 0, 4/5, 0⟩ ∧
      (if 1/2 < (bestGesture (confidencesOf t i m r p pin)).2 then
        (bestGesture (confidencesOf t i m r p pin)).1 else "unknown") =
        "pinch" := by
  cases t <;> cases i <;> cases m <;> cases r <;> cases p <;> cases pin <;>
    norm_num [confidencesOf, bestGesture, countOf]

/-- The rock-sign rule over the extracted flags. -/
theorem rock_sign_rule_aux (t i m r p pin : Bool) :
    (i = true ∧ m = false ∧ r = false ∧ p = true) →
      ¬(pin = true) →
      confidencesOf t i m r p pin = ⟨0, 0, 0, 0, 0, 4/5⟩ ∧
      (if 1/2 < (bestGesture (confidencesOf t i m r p pin)).2 then
        (bestGesture (confidencesOf t i m r p pin)).1 else "unknown") =
        "rock_sign" := by
  cases t <;> cases i <;> cases m <;> cases r <;> cases p <;> cases pin <;>
    norm_num [confidencesOf, bestGesture, countOf]


/-- C1 counterexample: in Cooling (`t = -1`) with the pose held and
`dt = 1/2`, `check_for_mode_toggle` leaves the timer at `-1`, not at
`min(0, t + dt) = -1/2` — the claim's "regardless of pose" fails. -/
theorem C1_counterexample :
    modeToggleStep 1 (-1) true (1/2) = (-1, false)
    ∧ min 0 ((-1 : ℚ) + 1/2) = -1/2
    ∧ ((-1 : ℚ) ≠ -1/2) := by
  refine ⟨?_, ?_, by norm_num⟩
  · norm_num [modeToggleStep]
  · rw [min_def]; norm_num

/-- C1 (amended): in a Cooling state (`t < 0`), a frame on which the
pose does NOT hold updates the timer to `min(0, t + dt)` and fires
nothing, and once that reaches 0 the machine is Idle; a frame on which
the pose DOES hold leaves the timer unchanged and fires nothing. -/
theorem C1_cooling_amended (H t dt : ℚ) (ht : t < 0) :
    modeToggleStep H t false dt = (min 0 (t + dt), false)
    ∧ modeToggleStep H t true dt = (t, false)
    ∧ (0 ≤ t + dt → stateOf (modeToggleStep H t false dt).1 = ModeState.Idle) := by
  have h1 : ¬(0 < t) := not_lt.mpr ht.le
  refine ⟨by simp [modeToggleStep, h1, ht], by simp [modeToggleStep, h1, ht.ne], ?_⟩
  intro h
  have hmin : min 0 (t + dt) = 0 := min_eq_left h
  simp [modeToggleStep, h1, ht, hmin, stateOf]

/-- C1 witness: the amended Cooling step at `H = 1`, `t = -1`, `dt = 2`. -/
theorem C1_witness :
    ((-1 : ℚ) < 0)
    ∧ modeToggleStep 1 (-1) false 2 = (min 0 ((-1) + 2), false)
    ∧ modeToggleStep 1 (-1) true 2 = (-1, false)
    ∧ stateOf (modeToggleStep 1 (-1) false 2).1 = ModeState.Idle := by
  have h := C1_cooling_amended 1 (-1) 2 (by norm_num)
  exact ⟨by norm_num, h.1, h.2.1, h.2.2 (by norm_num)⟩

/-- C2 (amended): a frame matching exactly one rule's predicate yields
that gesture as arg-max with its documented constant and all other five
confidences 0 — for fist, peace, open_palm, pinch and rock_sign; for
thumbs_up its predicate necessarily also satisfies the fist predicate,
so the fist confidence is 0.8 (not 0) on every such frame, while
thumbs_up (0.9) still wins the arg-max. -/
theorem C2_coarse_exclusivity (lm : HandFrame) :
    (FistPredicate lm → ¬ThumbsUpPredicate lm → ¬PinchPredicate lm →
      confidences lm = ⟨4/5, 0, 0, 0, 0, 0⟩ ∧ detectGesturePure lm = "fist")
    ∧ (ThumbsUpPredicate lm → ¬PinchPredicate lm →
      FistPredicate lm ∧ confidences lm = ⟨4/5, 9/10, 0, 0, 0, 0⟩ ∧
      detectGesturePure lm = "thumbs_up")
    ∧ (PeacePredicate lm → ¬PinchPredicate lm →
      confidences lm = ⟨0, 0, 9/10, 0, 0, 0⟩ ∧ detectGesturePure lm = "peace")
    ∧ (OpenPalmPredicate lm → ¬PinchPredicate lm →
      confidences lm = ⟨0, 0, 0, 9/10, 0, 0⟩ ∧
      detectGesturePure lm = "open_palm")
    ∧ (PinchPredicate lm → ¬FistPredicate lm → ¬PeacePredicate lm →
      ¬OpenPalmPredicate lm → ¬RockSignPredicate lm →
      confidences lm = ⟨0, 0, 0, 0, 4/5, 0⟩ ∧ detectGesturePure lm = "pinch")
    ∧ (RockSignPredicate lm → ¬PinchPredicate lm →
      confidences lm = ⟨0, 0, 0, 0, 0, 4/5⟩ ∧
      detectGesturePure lm = "rock_sign") :=
  ⟨fist_rule_aux (isThumbExtended lm) (indexExtended lm) (middleExtended lm)
      (ringExtended lm) (pinkyExtended lm) (isPinching lm),
   thumbs_up_rule_aux (isThumbExtended lm) (indexExtended lm)
      (middleExtended lm) (ringExtended lm) (pinkyExtended lm) (isPinching lm),
   peace_rule_aux (isThumbExtended lm) (indexExtended lm) (middleExtended lm)
      (ringExtended lm) (pinkyExtended lm) (isPinching lm),
   open_palm_rule_aux (isThumbExtended lm) (indexExtended lm)
      (middleExtended lm) (ringExtended lm) (pinkyExtended lm) (isPinching lm),
   pinch_rule_aux (isThumbExtended lm) (indexExtended lm) (middleExtended lm)
      (ringExtended lm) (pinkyExtended lm) (isPinching lm),
   rock_sign_rule_aux (isThumbExtended lm) (indexExtended lm)
      (middleExtended lm) (ringExtended lm) (pinkyExtended lm) (isPinching lm)⟩

/-- C2 counterexample: on a concrete frame matching exactly the
thumbs-up predicate (only the thumb extended, no pinch), the fist
confidence is 0.8, not 0, refuting "the confidences of the other five
gestures are all 0"; the returned gesture is still thumbs_up. -/
theorem C2_counterexample :
    ThumbsUpPredicate thumbOnlyFrame
    ∧ (confidences thumbOnlyFrame).fist = 4/5
    ∧ (confidences thumbOnlyFrame).fist ≠ 0
    ∧ detectGesturePure thumbOnlyFrame = "thumbs_up" := by
  norm_num [ThumbsUpPredicate, confidences, confidencesOf, countOf,
    bestGesture, detectGesturePure, isThumbExtended, indexExtended,
    middleExtended, ringExtended, pinkyExtended, isPinching, pinchDistSq,
    dist2Sq, thumbOnlyFrame, mkFrame]

/-- C2 witness: the amended fist case applied to a concrete all-closed
frame. -/
theorem C2_witness :
    FistPredicate fistFrame ∧ ¬ThumbsUpPredicate fistFrame
    ∧ ¬PinchPredicate fistFrame
    ∧ confidences fistFrame = ⟨4/5, 0, 0, 0, 0, 0⟩
    ∧ detectGesturePure fistFrame = "fist" := by
  have h1 : FistPredicate fistFrame := by
    norm_num [FistPredicate, countExtended, countOf, isThumbExtended,
      indexExtended, middleExtended, ringExtended, pinkyExtended,
      fistFrame, mkFrame]
  have h2 : ¬ThumbsUpPredicate fistFrame := by
    norm_num [ThumbsUpPredicate, isThumbExtended, indexExtended,
      middleExtended, ringExtended, pinkyExtended, fistFrame, mkFrame]
  have h3 : ¬PinchPredicate fistFrame := by
    norm_num [PinchPredicate, isPinching, pinchDistSq, dist2Sq,
      fistFrame, mkFrame]
  have h := (C2_coarse_exclusivity fistFrame).1 h1 h2 h3
  exact ⟨h1, h2, h3, h.1, h.2⟩

/-- C3 counterexample: a frame whose thumb tip and index tip coincide in
x and y but are one depth unit apart has full 3D distance 1 (≥ 0.05),
yet the coarse classifier assigns pinch confidence 0.8 — the pinch
distance it uses is planar (x, y only), not over all three coordinates. -/
theorem C3_counterexample :
    (confidences depthPinchFrame).pinch = 4/5
    ∧ dist3Sq (depthPinchFrame 4) (depthPinchFrame 8) = 1
    ∧ ¬ Real.sqrt ((dist3Sq (depthPinchFrame 4) (depthPinchFrame 8) : ℚ) : ℝ)
        < 1/20 := by
  have h3 : dist3Sq (depthPinchFrame 4) (depthPinchFrame 8) = 1 := by
    norm_num [dist3Sq, depthPinchFrame, mkFrame]
  refine ⟨?_, h3, ?_⟩
  · norm_num [confidences, confidencesOf, isPinching, pinchDistSq, dist2Sq,
      depthPinchFrame, mkFrame]
  · rw [h3]
    push_cast
    rw [Real.sqrt_one]
    norm_num

/-- C3 (amended): the coarse classifier's pinch distance is the planar
(x, y) Euclidean distance between thumb tip and index tip; the pinch
confidence is 0.8 exactly when that planar distance is below 0.05 and 0
otherwise; at planar distance exactly 0.0499 the confidence is 0.8 and
at 0.0501 it is 0. -/
theorem C3_pinch_planar :
    (∀ lm : HandFrame,
      ((confidences lm).pinch = 4/5 ↔
        Real.sqrt ((pinchDistSq lm : ℚ) : ℝ) < 1/20)
      ∧ ((confidences lm).pinch = 4/5 ∨ (confidences lm).pinch = 0))
    ∧ (confidences pinch0499Frame).pinch = 4/5
    ∧ (confidences pinch0501Frame).pinch = 0 := by
  refine ⟨fun lm => ?_, ?_, ?_⟩
  · have hbr := sqrt_comparison_bridge ((pinchDistSq lm : ℚ) : ℝ) (1/20)
      (by norm_num)
    by_cases hp : pinchDistSq lm < 1/400
    · have hpin : isPinching lm = true := by
        simp only [isPinching, decide_eq_true_eq]
        exact hp
      have hconf : (confidences lm).pinch = 4/5 := by
        simp [confidences, confidencesOf, hpin]
      refine ⟨?_, Or.inl hconf⟩
      rw [hconf, hbr]
      have hc : ((pinchDistSq lm : ℚ) : ℝ) < ((1/400 : ℚ) : ℝ) := by
        exact_mod_cast hp
      constructor
      · intro _
        push_cast at hc
        nlinarith [hc]
      · intro _
        rfl
    · have hpin : isPinching lm = false := by
        simp only [isPinching, decide_eq_false_iff_not]
        exact hp
      have hconf : (confidences lm).pinch = 0 := by
        simp [confidences, confidencesOf, hpin]
      refine ⟨?_, Or.inr hconf⟩
      rw [hconf, hbr]
      constructor
      · intro h
        exact absurd h (by norm_num)
      · intro h
        exfalso
        have hc : ((1/400 : ℚ) : ℝ) ≤ ((pinchDistSq lm : ℚ) : ℝ) := by
          exact_mod_cast not_lt.mp hp
        push_cast at hc
        nlinarith [h, hc]
  · norm_num [confidences, confidencesOf, isPinching, pinchDistSq, dist2Sq,
      pinch0499Frame, mkFrame]
  · norm_num [confidences, confidencesOf, isPinching, pinchDistSq, dist2Sq,
      pinch0501Frame, mkFrame]

/-- C4: on any frame with index and pinky extended and middle and ring
closed, the tool-selection ladder returns rotate (0.9) when the thumb is
extended and extrude (0.9) when it is not — one result, never both,
never neither; and in general the six raw tool patterns are pairwise
mutually exclusive, so at most one fires per call. -/
theorem C4_tool_ladder :
    (∀ lm : HandFrameR, IndexExtR lm → PinkyExtR lm → ¬MiddleExtR lm →
      ¬RingExtR lm →
      ((ThumbExtR lm →
        detectToolSelectionGesture lm = some ⟨"rotate", 9/10⟩)
       ∧ (¬ThumbExtR lm →
        detectToolSelectionGesture lm = some ⟨"extrude", 9/10⟩)))
    ∧ (∀ (lm : HandFrameR) (i j : Fin 6),
        ToolPattern lm i → ToolPattern lm j → i = j) := by
  constructor
  · intro lm hI hP hM hR
    constructor
    · intro hT
      unfold detectToolSelectionGesture
      rw [if_neg (by simp only [ToolPattern]; tauto)]
      rw [if_neg (by simp only [ToolPattern]; tauto)]
      rw [if_neg (by simp only [ToolPattern]; tauto)]
      rw [if_neg (by simp only [ToolPattern]; tauto)]
      rw [if_pos (show ToolPattern lm 4 from ⟨hT, hI, hM, hR, hP⟩)]
    · intro hT
      unfold detectToolSelectionGesture
      rw [if_neg (by simp only [ToolPattern]; tauto)]
      rw [if_neg (by simp only [ToolPattern]; tauto)]
      rw [if_neg (by simp only [ToolPattern]; tauto)]
      rw [if_neg (by simp only [ToolPattern]; tauto)]
      rw [if_neg (by simp only [ToolPattern]; tauto)]
      rw [if_pos (show ToolPattern lm 5 from ⟨hI, hM, hR, hP, hT⟩)]
  · intro lm i j hi hj
    fin_cases i <;> fin_cases j <;>
      first
      | rfl
      | (exfalso; simp only [ToolPattern] at hi hj; tauto)

/-- C4 witness: the ladder on two concrete frames sharing the
index+pinky/middle/ring sub-condition, with the thumb extended
(rotate) and folded (extrude). -/
theorem C4_witness :
    IndexExtR rotateFrameR ∧ PinkyExtR rotateFrameR
    ∧ ¬MiddleExtR rotateFrameR ∧ ¬RingExtR rotateFrameR
    ∧ ThumbExtR rotateFrameR
    ∧ detectToolSelectionGesture rotateFrameR = some ⟨"rotate", 9/10⟩
    ∧ ¬ThumbExtR extrudeFrameR
    ∧ detectToolSelectionGesture extrudeFrameR = some ⟨"extrude", 9/10⟩ := by
  have hI : IndexExtR rotateFrameR := by
    norm_num [IndexExtR, rotateFrameR, mkFrameR]
  have hP : PinkyExtR rotateFrameR := by
    norm_num [PinkyExtR, rotateFrameR, mkFrameR]
  have hM : ¬MiddleExtR rotateFrameR := by
    norm_num [MiddleExtR, rotateFrameR, mkFrameR]
  have hR : ¬RingExtR rotateFrameR := by
    norm_num [RingExtR, rotateFrameR, mkFrameR]
  have hT : ThumbExtR rotateFrameR := by
    norm_num [ThumbExtR, rotateFrameR, mkFrameR]
  have hI' : IndexExtR extrudeFrameR := by
    norm_num [IndexExtR, extrudeFrameR, mkFrameR]
  have hP' : PinkyExtR extrudeFrameR := by
    norm_num [PinkyExtR, extrudeFrameR, mkFrameR]
  have hM' : ¬MiddleExtR extrudeFrameR := by
    norm_num [MiddleExtR, extrudeFrameR, mkFrameR]
  have hR' : ¬RingExtR extrudeFrameR := by
    norm_num [RingExtR, extrudeFrameR, mkFrameR]
  have hT' : ¬ThumbExtR extrudeFrameR := by
    norm_num [ThumbExtR, extrudeFrameR, mkFrameR]
  exact ⟨hI, hP, hM, hR, hT,
    (C4_tool_ladder.1 rotateFrameR hI hP hM hR).1 hT, hT',
    (C4_tool_ladder.1 extrudeFrameR hI' hP' hM' hR').2 hT'⟩

/-- C5: gating of `execute_gesture_action`: any non-`open_palm` gesture
within the 0.8s cooldown is rejected with the state untouched;
`open_palm` is never rejected and never updates `last_action_time`; and
a fist passing the cooldown dispatches, after which a second fist 0.5s
later dispatches nothing (one action total) while a second fist 1.0s
later dispatches again (two actions total). -/
theorem C5_action_cooldown :
    (∀ (s : DispatchState) (g : String) (now : ℚ), g ≠ "open_palm" →
      now - s.last_action_time < actionCooldown →
      executeGestureAction s g now = (none, s))
    ∧ (∀ (s : DispatchState) (now : ℚ),
      (executeGestureAction s "open_palm" now).1 = some "camera_control"
      ∧ (executeGestureAction s "open_palm" now).2.last_action_time =
          s.last_action_time)
    ∧ (∀ (s : DispatchState) (t : ℚ),
      actionCooldown ≤ t - s.last_action_time →
      (executeGestureAction s "fist" t).1 = some "spawn_drone"
      ∧ (executeGestureAction (executeGestureAction s "fist" t).2 "fist"
          (t + 1/2)).1 = none
      ∧ (executeGestureAction (executeGestureAction s "fist" t).2 "fist"
          (t + 1)).1 = some "spawn_drone") := by
  refine ⟨?_, ?_, ?_⟩
  · intro s g now hg hcd
    unfold executeGestureAction
    rw [if_pos ⟨hcd, hg⟩]
  · intro s now
    unfold executeGestureAction
    rw [if_neg (fun h => h.2 rfl)]
    simp
  · intro s t hcd
    have h1 : executeGestureAction s "fist" t =
        (some "spawn_drone", ⟨t, s.camera_control_active⟩) := by
      unfold executeGestureAction
      rw [if_neg (fun h => absurd h.1 (not_lt.mpr hcd))]
      simp
    refine ⟨by rw [h1], ?_, ?_⟩
    · rw [h1]
      show (executeGestureAction ⟨t, s.camera_control_active⟩ "fist"
        (t + 1/2)).1 = none
      unfold executeGestureAction
      rw [if_pos ⟨show t + 1/2 - t < actionCooldown by
        rw [actionCooldown]; linarith, by simp⟩]
    · rw [h1]
      show (executeGestureAction ⟨t, s.camera_control_active⟩ "fist"
        (t + 1)).1 = some "spawn_drone"
      have hno : ¬(t + 1 - t < actionCooldown) := by
        rw [actionCooldown]; intro hh; linarith
      unfold executeGestureAction
      rw [if_neg (fun h => hno h.1)]
      simp

/-- C5 witness: the three parts at a concrete state (`last = 0`) and
concrete times. -/
theorem C5_witness :
    executeGestureAction ⟨0, false⟩ "fist" (1/2) = (none, ⟨0, false⟩)
    ∧ (executeGestureAction ⟨0, false⟩ "open_palm" (1/2)).1 =
        some "camera_control"
    ∧ (executeGestureAction ⟨0, false⟩ "fist" 1).1 = some "spawn_drone"
    ∧ (executeGestureAction (executeGestureAction ⟨0, false⟩ "fist" 1).2
        "fist" (1 + 1/2)).1 = none
    ∧ (executeGestureAction (executeGestureAction ⟨0, false⟩ "fist" 1).2
        "fist" (1 + 1)).1 = some "spawn_drone" := by
  have hp := C5_action_cooldown.2.2 ⟨0, false⟩ 1
    (by rw [actionCooldown]; norm_num)
  exact ⟨C5_action_cooldown.1 ⟨0, false⟩ "fist" (1/2) (by simp)
      (by rw [actionCooldown]; norm_num),
    (C5_action_cooldown.2.1 ⟨0, false⟩ (1/2)).1, hp.1, hp.2.1, hp.2.2⟩

/-- C9: any gesture other than `open_palm` that passes the cooldown —
including unrecognized ones that dispatch no action — sets
`last_action_time := now`, so a stream of unrecognized gestures delays a
later recognized gesture. -/
theorem C9_unrecognized_resets_clock :
    (∀ (s : DispatchState) (now : ℚ),
      actionCooldown ≤ now - s.last_action_time →
      executeGestureAction s "unknown" now = (none, ⟨now, false⟩))
    ∧ (∀ (s : DispatchState) (g : String) (now : ℚ),
      actionCooldown ≤ now - s.last_action_time → g ≠ "open_palm" →
      (executeGestureAction s g now).2.last_action_time = now)
    ∧ (∀ (s : DispatchState) (t : ℚ),
      actionCooldown ≤ t - s.last_action_time →
      (executeGestureAction (executeGestureAction s "unknown" t).2 "fist"
        (t + 1/2)).1 = none) := by
  have hunk : ∀ (s : DispatchState) (now : ℚ),
      actionCooldown ≤ now - s.last_action_time →
      executeGestureAction s "unknown" now = (none, ⟨now, false⟩) := by
    intro s now hcd
    unfold executeGestureAction
    rw [if_neg (fun h => absurd h.1 (not_lt.mpr hcd))]
    simp
  refine ⟨hunk, ?_, ?_⟩
  · intro s g now hcd hg
    unfold executeGestureAction
    rw [if_neg (fun h => absurd h.1 (not_lt.mpr hcd))]
    split_ifs <;> simp_all
  · intro s t hcd
    rw [hunk s t hcd]
    show (executeGestureAction ⟨t, false⟩ "fist" (t + 1/2)).1 = none
    unfold executeGestureAction
    rw [if_pos ⟨show t + 1/2 - t < actionCooldown by
      rw [actionCooldown]; linarith, by simp⟩]

/-- C9 witness: at `last = 0`, an `"unknown"` gesture at `t = 1`
dispatches nothing yet resets the clock, so a fist at `t = 1.5` is
rejected. -/
theorem C9_witness :
    executeGestureAction ⟨0, false⟩ "unknown" 1 = (none, ⟨1, false⟩)
    ∧ (executeGestureAction ⟨0, true⟩ "fist" 1).2.last_action_time = 1
    ∧ (executeGestureAction (executeGestureAction ⟨0, false⟩ "unknown" 1).2
        "fist" (1 + 1/2)).1 = none := by
  exact ⟨C9_unrecognized_resets_clock.1 ⟨0, false⟩ 1
      (by rw [actionCooldown]; norm_num),
    C9_unrecognized_resets_clock.2.1 ⟨0, true⟩ "fist" 1
      (by rw [actionCooldown]; norm_num) (by simp),
    C9_unrecognized_resets_clock.2.2 ⟨0, false⟩ 1
      (by rw [actionCooldown]; norm_num)⟩

/-- C6: from Idle, holding the pose continuously for total elapsed time
(measured from the arming frame) strictly less than the hold time and
then releasing fires zero toggle events and returns to Idle; holding for
at least the hold time fires exactly one; and while Cooling, held frames
change nothing and no step fires an event. -/
theorem C6_mode_toggle_debounce (H d1 dRel t : ℚ) (ds dsB : List ℚ)
    (hH : 0 < H) :
    ((∀ d ∈ ds, 0 ≤ d) → ds.sum < H →
      runModeToggle H 0 (((true, d1) :: ds.map fun d => (true, d)) ++
        [(false, dRel)]) = (0, 0))
    ∧ (H ≤ dsB.sum →
      (runModeToggle H 0 ((true, d1) :: dsB.map fun d => (true, d))).2 = 1)
    ∧ (t < 0 → ∀ dsC : List ℚ,
      runModeToggle H t (dsC.map fun d => (true, d)) = (t, 0))
    ∧ (t < 0 → ∀ (pose : Bool) (dt : ℚ),
      (modeToggleStep H t pose dt).2 = false) := by
  have hstep0 : ∀ d : ℚ, modeToggleStep H 0 true d = (H, false) := by
    intro d
    simp [modeToggleStep]
  refine ⟨?_, ?_, ?_, ?_⟩
  · intro hnn hsum
    have harm := runModeToggle_arming H ds H hH hnn hsum
    have hpos : 0 < H - ds.sum := sub_pos.mpr hsum
    have hrel : modeToggleStep H (H - ds.sum) false dRel = (0, false) := by
      simp [modeToggleStep, hpos]
    rw [List.cons_append]
    simp only [runModeToggle, hstep0, runModeToggle_append, harm, hrel]
    simp [runModeToggle]
  · intro hs
    have hfires := runModeToggle_arming_fires H hH dsB H hH hs
    simp only [runModeToggle, hstep0]
    simp [hfires]
  · intro ht dsC
    exact runModeToggle_held_cooling H t ht dsC
  · intro ht pose dt
    cases pose
    · simp [modeToggleStep, not_lt.mpr ht.le, ht]
    · simp [modeToggleStep, not_lt.mpr ht.le, ht.ne]

/-- C6 witness: hold time 1; holding 1/4+1/4 past the arming frame then
releasing fires nothing; holding 3/4+1/2 fires once; Cooling at -1/2
ignores held frames. -/
theorem C6_witness :
    ((0:ℚ) < 1)
    ∧ runModeToggle 1 0 (((true, 1/4) ::
        [(1/4 : ℚ), 1/4].map fun d => (true, d)) ++ [(false, 1/10)]) = (0, 0)
    ∧ (runModeToggle 1 0 ((true, 1/4) ::
        [(3/4 : ℚ), 1/2].map fun d => (true, d))).2 = 1
    ∧ runModeToggle 1 (-1/2) ([(1/4 : ℚ)].map fun d => (true, d)) = (-1/2, 0)
    ∧ (modeToggleStep 1 (-1/2) true (1/4)).2 = false := by
  have h := C6_mode_toggle_debounce 1 (1/4) (1/10) (-1/2) [1/4, 1/4]
    [3/4, 1/2] (by norm_num)
  refine ⟨by norm_num, h.1 ?_ ?_, h.2.1 ?_, h.2.2.1 (by norm_num) [1/4],
    h.2.2.2 (by norm_num) true (1/4)⟩
  · simp only [List.forall_mem_cons, List.forall_mem_nil]
    norm_num
  · norm_num [List.sum_cons, List.sum_nil]
  · norm_num [List.sum_cons, List.sum_nil]

/-- C7: the gesture history is insertion-ordered with capacity 10 (the
oldest entry evicted when appending at capacity), an entry is appended
only when more than the 1.0s cooldown has elapsed since the previous
append, and the throttling never changes the returned gesture, which
always equals the stateless per-frame classification. -/
theorem C7_history_invariants (s : GestureState) (lm : HandFrame) (now : ℚ)
    (hlen : s.gesture_history.length ≤ maxHistory) :
    (detectGestureFull s lm now).2.gesture_history.length ≤ maxHistory
    ∧ ((detectGestureFull s lm now).2.gesture_history ≠ s.gesture_history →
        gestureCooldown < now - s.last_gesture_time)
    ∧ ((detectGestureFull s lm now).2 = s ∨
        ((detectGestureFull s lm now).2.last_gesture_time = now ∧
         ∃ g, (s.gesture_history.length < maxHistory ∧
            (detectGestureFull s lm now).2.gesture_history =
              s.gesture_history ++ [(g, now)]) ∨
           (s.gesture_history.length = maxHistory ∧
            (detectGestureFull s lm now).2.gesture_history =
              s.gesture_history.drop 1 ++ [(g, now)])))
    ∧ (detectGestureFull s lm now).1 = detectGesturePure lm := by
  simp only [detectGestureFull, detectGesturePure, maxHistory] at hlen ⊢
  split_ifs with hbest hcool hfull
  · rw [List.length_append, List.length_singleton] at hfull
    have hmax : s.gesture_history.length = 10 := by omega
    have hdrop : (s.gesture_history ++
        [((bestGesture (confidences lm)).1, now)]).drop 1 =
        s.gesture_history.drop 1 ++
          [((bestGesture (confidences lm)).1, now)] :=
      List.drop_append_of_le_length (by omega)
    refine ⟨?_, fun _ => hcool, Or.inr ⟨rfl, (bestGesture (confidences lm)).1,
      Or.inr ⟨hmax, hdrop⟩⟩, rfl⟩
    rw [hdrop, List.length_append, List.length_drop, List.length_singleton]
    omega
  · have hle : (s.gesture_history ++
        [((bestGesture (confidences lm)).1, now)]).length ≤ 10 :=
      not_lt.mp hfull
    rw [List.length_append, List.length_singleton] at hle
    have hlt : s.gesture_history.length < 10 := by omega
    refine ⟨?_, fun _ => hcool, Or.inr ⟨rfl, (bestGesture (confidences lm)).1,
      Or.inl ⟨hlt, rfl⟩⟩, rfl⟩
    rw [List.length_append, List.length_singleton]
    omega
  · exact ⟨hlen, fun h => absurd rfl h, Or.inl rfl, rfl⟩
  · exact ⟨hlen, fun h => absurd rfl h, Or.inl rfl, rfl⟩

/-- C7 witness: one call from the initial state (empty history, last
time 0). -/
theorem C7_witness :
    (⟨[], 0⟩ : GestureState).gesture_history.length ≤ maxHistory
    ∧ (detectGestureFull ⟨[], 0⟩ fistFrame 2).1 =
        detectGesturePure fistFrame
    ∧ (detectGestureFull ⟨[], 0⟩ fistFrame 2).2.gesture_history.length ≤
        maxHistory := by
  have h := C7_history_invariants ⟨[], 0⟩ fistFrame 2
    (by simp [maxHistory])
  exact ⟨by simp [maxHistory], h.2.2.2, h.1⟩

/-- C8: for every call with a data record, the result always contains a
spread_scale entry whose confidence is 0.7 when the mean adjacent
fingertip distance exceeds 0.3 and 0 otherwise, and whose scale_factor
is the mean distance times 3, computed even at confidence 0. -/
theorem C8_spread_scale_always (d : PrecisionData) :
    ∃ sd : SpreadData,
      (detectPreciseGestures (some d)).spread_scale = some sd
      ∧ sd.scale_factor = measureFingerSpread d.landmarks * 3
      ∧ (3/10 < measureFingerSpread d.landmarks → sd.confidence = 7/10)
      ∧ (measureFingerSpread d.landmarks ≤ 3/10 → sd.confidence = 0) := by
  refine ⟨⟨if 3/10 < measureFingerSpread d.landmarks then 7/10 else 0,
    measureFingerSpread d.landmarks * 3⟩, ?_, rfl, ?_, ?_⟩
  · rfl
  · intro h
    simp only [if_pos h]
  · intro h
    simp only [if_neg (not_lt.mpr h)]

/-- C8 witness: the spread_scale entry on a concrete data record. -/
theorem C8_witness :
    ∃ sd : SpreadData,
      (detectPreciseGestures (some sampleData)).spread_scale = some sd
      ∧ sd.scale_factor = measureFingerSpread sampleData.landmarks * 3
      ∧ (3/10 < measureFingerSpread sampleData.landmarks →
          sd.confidence = 7/10)
      ∧ (measureFingerSpread sampleData.landmarks ≤ 3/10 →
          sd.confidence = 0) :=
  C8_spread_scale_always sampleData

/-- C10: on the first tracker update after (re)acquisition
(`prev_landmarks` empty), the produced velocity mapping is absent, and
therefore `precision_point` is not reported for that frame, whatever the
landmarks (even a perfect pointing pose). -/
theorem C10_first_frame_no_point (s : TrackerState) (lm : HandFrameR)
    (h : s.prev_landmarks = none) :
    (∃ pd, (trackerUpdate s (some lm)).1 = some pd ∧ pd.velocities = none)
    ∧ (detectPreciseGestures
        (trackerUpdate s (some lm)).1).precision_point = none := by
  unfold trackerUpdate
  rw [h]
  refine ⟨⟨_, rfl, rfl⟩, ?_⟩
  simp only [detectPreciseGestures]
  rw [if_neg ?_]
  intro hc
  exact hc.2

/-- C10 witness: the freshly initialized tracker on a concrete frame in
a full pointing-compatible pose. -/
theorem C10_witness :
    initTracker.prev_landmarks = none
    ∧ (detectPreciseGestures
        (trackerUpdate initTracker (some rotateFrameR)).1).precision_point
        = none :=
  ⟨rfl, (C10_first_frame_no_point initTracker rotateFrameR rfl).2⟩
